import Mathlib

/-!
Verification development for the conversational core of the repository
(`src/models/ai_engine.py` and the collaborators it drives).

The orchestrator `AIEngine` (class `AIEngine` in `src/models/ai_engine.py`)
is embedded shallowly: its mutable attributes become an explicit state
record threaded through the operations, the HTTP call to the model backend
becomes a function argument producing an `AdapterResult`, and the
collaborating classes that are declared in the repository but whose source
modules are not present (`models/schemas.py`, `models/memory_system.py`,
`models/emotional_intelligence.py`, `models/rag_engine.py`) are modelled
from the specification.
-/

namespace Lily

/-- Modelled from the spec: `EmotionType` lives in `models/schemas.py`, which
is not among the provided sources.  The spec (§3) fixes a finite emotion
enumeration ("Neutral, Happy, Worried, Sad, Excited"); `ai_engine.py` uses
the members `EmotionType.NEUTRAL` and `EmotionType.PREOCUPADA` ("Worried")
and reads `.value` as a string. -/
inductive EmotionType where
  | NEUTRAL
  | FELIZ
  | TRISTE
  | PREOCUPADA
  | EMOCIONADA
  deriving DecidableEq, Repr

/-- Modelled from the spec: the `.value` string of each `EmotionType` member,
as read by `ai_engine.py` (e.g. `emotional_state.emotion.value`). -/
def EmotionType.value : EmotionType → String
  | .NEUTRAL => "neutral"
  | .FELIZ => "feliz"
  | .TRISTE => "triste"
  | .PREOCUPADA => "preocupada"
  | .EMOCIONADA => "emocionada"

/-- Modelled from the spec (§3 `EmotionalStateRecord`): emotion label,
intensity in `[0,1]` (a float in the source, embedded as `ℚ`), and a reason
text.  Wall-clock timestamps are outside the embedding. -/
structure EmotionalStateRecord where
  emotion : EmotionType
  intensity : ℚ
  reason : String
  deriving DecidableEq, Repr

/-- Modelled from the spec (§3 `DialogueTurn`): role, content and an
optional emotion label.  Wall-clock timestamps are outside the embedding;
creation order is the list order inside `UserMemory`. -/
structure DialogueTurn where
  role : String
  content : String
  emotionLabel : Option String
  deriving DecidableEq, Repr

/-- Modelled from the spec (§3 `UserMemory`): one user's ordered dialogue
turns and ordered emotional timeline. -/
structure UserMemory where
  turns : List DialogueTurn := []
  emotionalStates : List EmotionalStateRecord := []
  deriving DecidableEq, Repr

/-- Modelled from the spec: `MemorySystem` lives in `models/memory_system.py`,
which is not among the provided sources.  Per-user storage keyed by user
identifier (§3 `UserMemory`), every user starting from an empty memory. -/
structure MemorySystem where
  mem : String → UserMemory

/-- Modelled from the spec: fresh store, every user id maps to empty memory
("created on first reference to a user id"). -/
def MemorySystem.empty : MemorySystem := ⟨fun _ => {}⟩

/-- Modelled from the spec: read accessor for one user's memory. -/
def MemorySystem.userMem (m : MemorySystem) (user_id : String) : UserMemory :=
  m.mem user_id

/-- Modelled from the spec (§4.2 `addMessage`): appends a `DialogueTurn` to
that user's sequence; other users are untouched. -/
def MemorySystem.add_message (m : MemorySystem) (user_id role content : String)
    (emotionLabel : Option String) : MemorySystem :=
  ⟨fun u =>
    if u = user_id then
      let um := m.mem user_id
      { um with turns := um.turns ++ [⟨role, content, emotionLabel⟩] }
    else m.mem u⟩

/-- Modelled from the spec (§4.2 `addEmotionalState`): appends an
`EmotionalStateRecord` to that user's emotional timeline. -/
def MemorySystem.add_emotional_state (m : MemorySystem) (user_id : String)
    (record : EmotionalStateRecord) : MemorySystem :=
  ⟨fun u =>
    if u = user_id then
      let um := m.mem user_id
      { um with emotionalStates := um.emotionalStates ++ [record] }
    else m.mem u⟩

/-- Modelled from the spec (§4.2 `getConversationContext`): the most recent
`max_messages` turns in chronological order (oldest first); all of them if
fewer exist.  A pure read. -/
def MemorySystem.get_conversation_context (m : MemorySystem) (user_id : String)
    (max_messages : Nat) : List DialogueTurn :=
  let ts := (m.userMem user_id).turns
  ts.drop (ts.length - max_messages)

/-- Modelled from the spec (§4.2 `getConversationSummary`): a compact digest
of the user's history (the spec suggests e.g. the turn count); never fails,
an unknown user yields an empty-history summary. -/
def MemorySystem.get_conversation_summary (m : MemorySystem) (user_id : String) : String :=
  let n := (m.userMem user_id).turns.length
  if n = 0 then "Sin historial de conversación."
  else "Conversación con " ++ toString n ++ " mensajes."

/-- Modelled from the spec (§4.2 `getEmotionalSummary`): a digest of the
emotional timeline; never fails for an unknown user. -/
def MemorySystem.get_emotional_summary (m : MemorySystem) (user_id : String) : String :=
  let es := (m.userMem user_id).emotionalStates
  match es.getLast? with
  | none => "Sin historial emocional."
  | some r => "Última emoción registrada: " ++ r.emotion.value ++ "."

/-- Modelled from the spec: `RAGEngine` lives in `models/rag_engine.py`,
which is not among the provided sources.  An append-only store of derived
snippets (§4.3). -/
structure RAGEngine where
  entries : List String := []
  deriving DecidableEq, Repr

/-- Parameters of the embedding that the sources leave abstract: the
emotion-classification heuristic of `EmotionalIntelligence.update_emotional_state`
(emotion, raw intensity, reason), the directive text of
`EmotionalIntelligence.get_emotional_modifier`, and the similarity ranking
used by `RAGEngine.query` — all deterministic per the spec (§4.1, §4.3). -/
structure Policy where
  classify : String → EmotionType × ℚ × String
  modifier : EmotionalStateRecord → String
  rank : String → List String → List String

/-- Modelled from the spec (§4.3 `query`): up to `n_results` snippets ranked
by similarity to the text, best first; best-effort and total. -/
def RAGEngine.query (r : RAGEngine) (pol : Policy) (text : String)
    (n_results : Nat) : List String :=
  (pol.rank text r.entries).take n_results

/-- Modelled from the spec (§4.3 `addConversationTurn`): stores a derived
entry (a combined representation of the pair) for future retrieval. -/
def RAGEngine.add_conversation_turn (r : RAGEngine) (user_text assistant_text : String) :
    RAGEngine :=
  { entries := r.entries ++ [user_text ++ "\n" ++ assistant_text] }

/-- Clamp to `[0,1]` (§3 invariant: "Intensity is always clamped to [0,1]"). -/
def clamp01 (q : ℚ) : ℚ := max 0 (min 1 q)

/-- Modelled from the spec (§4.1 `update`): derives the new current
emotional state from the utterance via the deterministic classification
policy, clamping intensity; total, never fails. -/
def update_emotional_state (pol : Policy) (utterance : String) : EmotionalStateRecord :=
  let c := pol.classify utterance
  ⟨c.1, clamp01 c.2.1, c.2.2⟩

/-- Embeds Python's `f"{x:.2f}"` on the `ℚ` embedding of the intensity float
(`ai_engine.py` line 110): two decimal digits, rounding half up. -/
def fmt2 (q : ℚ) : String :=
  let cents : Int := (q * 100 + 1 / 2).floor
  let ip := cents / 100
  let fr := (cents % 100).natAbs
  toString ip ++ "." ++ (if fr < 10 then "0" else "") ++ toString fr

/-- State of the orchestrator `AIEngine` (`src/models/ai_engine.py`): the
loaded persona prompt (`base_system_prompt`), the optional retrieval engine
(`rag_engine`, `None` when construction failed), the process-wide current
emotional state (`emotional_intelligence.current_state`), and the memory
store (`memory_system`). -/
structure AIEngine where
  base_system_prompt : String
  rag_engine : Option RAGEngine
  current_state : EmotionalStateRecord
  memory_system : MemorySystem

/-- Embeds `AIEngine.__init__` (`ai_engine.py` lines 15-47): a failed
`RAGEngine()` construction leaves `rag_engine = None`; a failed
`system_prompt.txt` load leaves the base prompt empty.  The outcome of each
fallible initialization step is an explicit `Option` argument. -/
def makeEngine (rag_init : Option RAGEngine) (system_prompt_file : Option String)
    (initial_state : EmotionalStateRecord) : AIEngine :=
  { base_system_prompt := system_prompt_file.getD ""
    rag_engine := rag_init
    current_state := initial_state
    memory_system := MemorySystem.empty }

/-- One chat message of the assembled prompt (`{"role": ..., "content": ...}`). -/
structure Message where
  role : String
  content : String
  deriving DecidableEq, Repr

/-- Embeds Python's `"\n".join(rag_docs)` (`ai_engine.py` line 103). -/
def joinLines : List String → String
  | [] => ""
  | [d] => d
  | d :: ds => d ++ "\n" ++ joinLines ds

/-- Embeds the `rag_context` computation of `AIEngine.build_prompt`
(`ai_engine.py` lines 99-103): empty when the engine is absent or returns no
documents, otherwise a header plus the joined documents. -/
def rag_context_of (pol : Policy) (e : AIEngine) (user_message : String) : String :=
  match e.rag_engine with
  | none => ""
  | some rag =>
    let rag_docs := rag.query pol user_message 2
    if rag_docs = [] then ""
    else "INFORMACIÓN RELEVANTE RECUPERADA:\n" ++ joinLines rag_docs ++ "\n"

/-- Embeds `AIEngine.build_prompt` (`ai_engine.py` lines 83-131): updates
the emotional state, appends it to the user's emotional timeline, fetches
context/summaries/snippets, and assembles the message list.  Returns the
messages together with the updated engine state. -/
def build_prompt (pol : Policy) (e : AIEngine) (user_message user_id : String) :
    List Message × AIEngine :=
  let emotional_state := update_emotional_state pol user_message
  let mem1 := e.memory_system.add_emotional_state user_id emotional_state
  let e1 : AIEngine := { e with current_state := emotional_state, memory_system := mem1 }
  let emotional_modifier := pol.modifier emotional_state
  let conversation_context := mem1.get_conversation_context user_id 6
  let emotional_summary := mem1.get_emotional_summary user_id
  let conversation_summary := mem1.get_conversation_summary user_id
  let rag_context := rag_context_of pol e user_message
  let system_prompt :=
    e.base_system_prompt ++ "\n\nCONTEXTO EMOCIONAL ACTUAL:\n" ++ emotional_modifier
      ++ "\nTu emoción actual: " ++ emotional_state.emotion.value
      ++ " (intensidad: " ++ fmt2 emotional_state.intensity ++ ")\nRazón: "
      ++ emotional_state.reason ++ "\n\nMEMORIA DE CONVERSACIÓN:\n"
      ++ conversation_summary ++ "\n" ++ emotional_summary ++ "\n" ++ rag_context
  (Message.mk "system" system_prompt
      :: conversation_context.map (fun t => Message.mk t.role t.content)
      ++ [Message.mk "user" user_message],
   e1)

/-- Outcome of the HTTP call to the model backend in
`AIEngine.generate_response`: a returned response with its status code and
parsed completion text, a `requests.exceptions.Timeout`, or any other raised
exception with its message. -/
inductive AdapterResult where
  | response (status_code : Nat) (content : String)
  | timeout
  | exc (msg : String)
  deriving DecidableEq, Repr

/-- The fixed apologetic reply of the timeout branch (`ai_engine.py` line 183). -/
def timeout_reply : String :=
  "Lo siento Mijin, estoy tardando mucho en pensar... ¿Podrías repetir eso?"

/-- The generic apologetic reply of the catch-all branch (`ai_engine.py` line 185). -/
def error_reply (m : String) : String := "Ay Mijin, algo salió mal: " ++ m

/-- The reply of the non-success-status branch (`ai_engine.py` line 180). -/
def status_reply (c : Nat) : String := "Error al conectar con el modelo: " ++ toString c

/-- The opening reasoning delimiter of the sanitize step (`ai_engine.py` line 162). -/
def openTag : List Char := "<think>".data

/-- The closing reasoning delimiter of the sanitize step (`ai_engine.py` line 162). -/
def closeTag : List Char := "</think>".data

/-- Splits a character list at the first occurrence of `pat`: returns the
characters before the occurrence and the characters after it.  `none` when
`pat` does not occur.  This is the primitive with which the regex
substitution of `ai_engine.py` line 162 is embedded. -/
def splitOnPat (pat : List Char) : List Char → Option (List Char × List Char)
  | [] => none
  | c :: cs =>
    if (c :: cs).take pat.length = pat then some ([], (c :: cs).drop pat.length)
    else
      match splitOnPat pat cs with
      | none => none
      | some (pre, post) => some (c :: pre, post)

/-- Fuel-indexed core of the substitution
`re.sub(r'<think>.*?</think>', '', s, flags=re.DOTALL)`
(`ai_engine.py` line 162): repeatedly find the first `<think>`, then the
nearest `</think>` after it (the non-greedy match, `.` crossing newlines),
drop the matched span, and continue scanning after it; if either delimiter
of the pair is missing, nothing further is removed. -/
def removeThinkAux : Nat → List Char → List Char
  | 0, s => s
  | fuel + 1, s =>
    match splitOnPat openTag s with
    | none => s
    | some (pre, rest) =>
      match splitOnPat closeTag rest with
      | none => s
      | some (_, post) => pre ++ removeThinkAux fuel post

/-- Embeds `re.sub(r'<think>.*?</think>', '', s, flags=re.DOTALL)`
(`ai_engine.py` line 162) on strings.  The fuel `s.data.length` dominates
the number of removal steps, so it never runs out. -/
def removeThinkStr (s : String) : String :=
  String.mk (removeThinkAux s.data.length s.data)

/-- Whitespace characters stripped by Python's `str.strip()` (the ASCII
ones; the exotic unicode space code points do not occur in this
development). -/
def pyWhitespace (c : Char) : Bool :=
  c = ' ' || c = '\t' || c = '\n' || c = '\r' || c = '\x0b' || c = '\x0c'

/-- Embeds Python's `str.strip()`: drop leading and trailing whitespace. -/
def pyStrip (l : List Char) : List Char :=
  ((l.dropWhile pyWhitespace).reverse.dropWhile pyWhitespace).reverse

/-- Embeds the sanitize step of `AIEngine.generate_response`
(`ai_engine.py` lines 160-163): remove the reasoning spans, then `strip()`
surrounding whitespace. -/
def sanitize (s : String) : String :=
  String.mk (pyStrip (removeThinkStr s).data)

/-- Embeds `AIEngine.generate_response` (`ai_engine.py` lines 133-185).
The HTTP call is the `adapter` argument applied to the assembled messages.
On a 200 response the completion is sanitized, the user and assistant turns
are appended to memory (the assistant turn tagged with the current emotion),
the pair is appended to the retrieval engine when present, and the sanitized
text with the current emotion is returned.  A non-success status yields the
status reply with `NEUTRAL`; a timeout yields the fixed apologetic reply
with `PREOCUPADA`; any other exception yields the generic apologetic reply
with `PREOCUPADA`.  All failure branches leave the state as `build_prompt`
produced it. -/
def generate_response (pol : Policy) (e : AIEngine)
    (adapter : List Message → AdapterResult) (user_message : String)
    (user_id : String) : (String × EmotionType) × AIEngine :=
  let r := build_prompt pol e user_message user_id
  let messages := r.1
  let e1 := r.2
  match adapter messages with
  | .response status_code content =>
    if status_code = 200 then
      let assistant_response := sanitize content
      let m2 := e1.memory_system.add_message user_id "user" user_message none
      let m3 := m2.add_message user_id "assistant" assistant_response
        (some e1.current_state.emotion.value)
      let e2 := { e1 with memory_system := m3 }
      let e3 :=
        match e2.rag_engine with
        | none => e2
        | some rag =>
          { e2 with rag_engine := some (rag.add_conversation_turn user_message assistant_response) }
      ((assistant_response, e1.current_state.emotion), e3)
    else ((status_reply status_code, EmotionType.NEUTRAL), e1)
  | .timeout => ((timeout_reply, EmotionType.PREOCUPADA), e1)
  | .exc m => ((error_reply m, EmotionType.PREOCUPADA), e1)

/-- Adapter outcomes that the spec groups as `ModelUnavailable`: a timeout,
a raised exception, or a response with a non-success status. -/
def AdapterFails (r : AdapterResult) : Prop :=
  r = .timeout ∨ (∃ m, r = .exc m) ∨ (∃ c b, r = .response c b ∧ c ≠ 200)

/-- A concrete policy instance used to exercise the theorems on closed
inputs: constant classification, constant modifier, identity ranking. -/
def pol0 : Policy :=
  { classify := fun _ => (EmotionType.NEUTRAL, 1, "sin señal fuerte")
    modifier := fun _ => "Mantén un tono tranquilo."
    rank := fun _ entries => entries }

/-- A concrete initial emotional state for closed instances. -/
def state0 : EmotionalStateRecord := ⟨EmotionType.NEUTRAL, 0, "inicio"⟩

/-- A concrete engine with no retrieval index and an empty persona, as after
a failed `RAGEngine()` construction and a failed `system_prompt.txt` load. -/
def eng0 : AIEngine := makeEngine none none state0

/-- A concrete snippet far larger than any plausible prompt budget. -/
def bigDoc : String := String.mk (List.replicate 100001 'a')

/-- A concrete engine whose retrieval index holds one very large snippet. -/
def engBig : AIEngine := makeEngine (some ⟨[bigDoc]⟩) (some "persona") state0

/-- A concrete engine whose retrieval index holds one small snippet. -/
def engDoc : AIEngine := makeEngine (some ⟨["doc"]⟩) (some "persona") state0


/-- Unfolding equation of `splitOnPat` on a nonempty list. -/
theorem splitOnPat_cons (pat : List Char) (c : Char) (cs : List Char) :
    splitOnPat pat (c :: cs) =
      if (c :: cs).take pat.length = pat then some ([], (c :: cs).drop pat.length)
      else
        match splitOnPat pat cs with
        | none => none
        | some (pre, post) => some (c :: pre, post) := by
  rw [splitOnPat]

/-- A successful split really is a decomposition around the pattern. -/
theorem splitOnPat_sound (pat : List Char) :
    ∀ (s pre post : List Char), splitOnPat pat s = some (pre, post) →
      s = pre ++ pat ++ post := by
  intro s
  induction s with
  | nil => intro pre post h; simp [splitOnPat] at h
  | cons c cs ih =>
    intro pre post h
    rw [splitOnPat_cons] at h
    by_cases hc : (c :: cs).take pat.length = pat
    · rw [if_pos hc] at h
      simp only [Option.some.injEq, Prod.mk.injEq] at h
      obtain ⟨rfl, rfl⟩ := h
      show c :: cs = pat ++ List.drop pat.length (c :: cs)
      conv_lhs => rw [← List.take_append_drop pat.length (c :: cs)]
      rw [hc]
    · rw [if_neg hc] at h
      cases hsp : splitOnPat pat cs with
      | none => rw [hsp] at h; cases h
      | some pr =>
        obtain ⟨pre', post'⟩ := pr
        rw [hsp] at h
        simp only [Option.some.injEq, Prod.mk.injEq] at h
        obtain ⟨rfl, rfl⟩ := h
        show c :: cs = c :: (pre' ++ pat ++ post')
        rw [ih pre' post' hsp]

/-- Length bookkeeping of a successful split. -/
theorem splitOnPat_length {pat s pre post : List Char}
    (h : splitOnPat pat s = some (pre, post)) :
    s.length = pre.length + pat.length + post.length := by
  rw [splitOnPat_sound pat s pre post h]
  simp
  omega

/-- A pattern occurring at the very front is found there, with empty prefix. -/
theorem splitOnPat_self (pat rest : List Char) (h : pat ≠ []) :
    splitOnPat pat (pat ++ rest) = some ([], rest) := by
  cases pat with
  | nil => exact absurd rfl h
  | cons c pat' =>
    have ht := List.take_left (c :: pat') rest
    have hd := List.drop_left (c :: pat') rest
    rw [List.cons_append] at ht hd
    show splitOnPat (c :: pat') (c :: (pat' ++ rest)) = some ([], rest)
    rw [splitOnPat_cons, if_pos ht, hd]

/-- When no character of `mid` is `<`, the first `</think>` of
`mid ++ </think> ++ post` is the explicit one. -/
theorem splitOnPat_close_mid :
    ∀ (mid post : List Char), (∀ c ∈ mid, c ≠ '<') →
      splitOnPat closeTag (mid ++ closeTag ++ post) = some (mid, post) := by
  intro mid
  induction mid with
  | nil =>
    intro post _
    show splitOnPat closeTag (closeTag ++ post) = some ([], post)
    exact splitOnPat_self closeTag post (by decide)
  | cons c mid' ih =>
    intro post h
    have hc : c ≠ '<' := h c (List.mem_cons_self c mid')
    show splitOnPat closeTag (c :: (mid' ++ closeTag ++ post)) = some (c :: mid', post)
    rw [splitOnPat_cons]
    rw [if_neg]
    · rw [ih post (fun x hx => h x (List.mem_cons_of_mem c hx))]
    · intro hcontra
      have hct : closeTag = '<' :: "/think>".data := rfl
      rw [show closeTag.length = 7 + 1 from rfl, List.take_succ_cons, hct] at hcontra
      injection hcontra with hc' hrest
      exact hc hc'

/-- The helper `removeThinkAux` ignores the empty list whatever the fuel. -/
theorem removeThinkAux_nil : ∀ (fuel : Nat), removeThinkAux fuel [] = [] := by
  intro fuel
  cases fuel with
  | zero => rfl
  | succ n => simp [removeThinkAux, splitOnPat]

/-- Any fuel at least the list length computes the same result: the fuel in
`removeThinkStr` is immaterial. -/
theorem removeThinkAux_congr :
    ∀ (f : Nat) (s : List Char) (g : Nat), s.length ≤ f → s.length ≤ g →
      removeThinkAux f s = removeThinkAux g s := by
  intro f
  induction f with
  | zero =>
    intro s g hf _
    have hs : s = [] := List.length_eq_zero.mp (Nat.le_zero.mp hf)
    subst hs
    rw [removeThinkAux_nil, removeThinkAux_nil]
  | succ f' ih =>
    intro s g hf hg
    cases g with
    | zero =>
      have hs : s = [] := List.length_eq_zero.mp (Nat.le_zero.mp hg)
      subst hs
      rw [removeThinkAux_nil, removeThinkAux_nil]
    | succ g' =>
      cases h1 : splitOnPat openTag s with
      | none => simp only [removeThinkAux, h1]
      | some pr =>
        obtain ⟨pre, rest⟩ := pr
        cases h2 : splitOnPat closeTag rest with
        | none => simp only [removeThinkAux, h1, h2]
        | some qr =>
          obtain ⟨mid, post⟩ := qr
          simp only [removeThinkAux, h1, h2]
          have l1 := splitOnPat_length h1
          have l2 := splitOnPat_length h2
          rw [show openTag.length = 7 from rfl] at l1
          rw [show closeTag.length = 8 from rfl] at l2
          rw [ih post g' (by omega) (by omega)]

/-- One removal step of `removeThinkStr`, stated on strings. -/
theorem removeThinkStr_step (s : String) (pre rest mid post : List Char)
    (h1 : splitOnPat openTag s.data = some (pre, rest))
    (h2 : splitOnPat closeTag rest = some (mid, post)) :
    removeThinkStr s = String.mk (pre ++ removeThinkAux post.length post) := by
  have l1 := splitOnPat_length h1
  have l2 := splitOnPat_length h2
  rw [show openTag.length = 7 from rfl] at l1
  rw [show closeTag.length = 8 from rfl] at l2
  have hne : s.data.length ≠ 0 := by omega
  obtain ⟨n, hn⟩ := Nat.exists_eq_succ_of_ne_zero hne
  unfold removeThinkStr
  rw [hn]
  simp only [removeThinkAux, h1, h2]
  rw [removeThinkAux_congr n post post.length (by omega) (le_refl _)]

/-- Complete delimiter pair at the front, with the enclosed span free of the
`<` character: the substitution removes exactly that span and continues on
the remainder. -/
theorem removeThinkStr_pair (mid post : String) (h : ∀ c ∈ mid.data, c ≠ '<') :
    removeThinkStr ("<think>" ++ mid ++ "</think>" ++ post) = removeThinkStr post := by
  have hdata : ("<think>" ++ mid ++ "</think>" ++ post).data
      = openTag ++ (mid.data ++ closeTag ++ post.data) := by
    simp only [String.data_append, List.append_assoc]
    rfl
  have h1 : splitOnPat openTag ("<think>" ++ mid ++ "</think>" ++ post).data
      = some ([], mid.data ++ closeTag ++ post.data) := by
    rw [hdata]
    exact splitOnPat_self openTag (mid.data ++ closeTag ++ post.data) (by decide)
  have h2 : splitOnPat closeTag (mid.data ++ closeTag ++ post.data)
      = some (mid.data, post.data) := splitOnPat_close_mid mid.data post.data h
  rw [removeThinkStr_step _ _ _ _ _ h1 h2]
  rfl

/-- An opening delimiter with no closing delimiter anywhere after it: the
substitution changes nothing. -/
theorem removeThinkStr_no_close (s : String) (pre rest : List Char)
    (h1 : splitOnPat openTag s.data = some (pre, rest))
    (h2 : splitOnPat closeTag rest = none) :
    removeThinkStr s = s := by
  have l1 := splitOnPat_length h1
  rw [show openTag.length = 7 from rfl] at l1
  have hne : s.data.length ≠ 0 := by omega
  obtain ⟨n, hn⟩ := Nat.exists_eq_succ_of_ne_zero hne
  unfold removeThinkStr
  rw [hn]
  simp only [removeThinkAux, h1, h2]

/-- Each joined document occurs contiguously inside the join. -/
theorem joinLines_infix :
    ∀ (ds : List String) (d : String), d ∈ ds →
      ∃ p q, joinLines ds = p ++ d ++ q := by
  intro ds
  induction ds with
  | nil => intro d hd; cases hd
  | cons x t ih =>
    intro d hd
    cases t with
    | nil =>
      have hdx : d = x := by simpa using hd
      subst hdx
      exact ⟨"", "", by simp [joinLines]⟩
    | cons y t' =>
      rcases List.mem_cons.mp hd with hdx | hdt
      · subst hdx
        exact ⟨"", "\n" ++ joinLines (y :: t'), by simp [joinLines, String.append_assoc]⟩
      · obtain ⟨p, q, hpq⟩ := ih d hdt
        refine ⟨x ++ "\n" ++ p, q, ?_⟩
        simp only [joinLines, hpq, String.append_assoc]

/-- Appending an emotional state never touches any user's dialogue turns. -/
theorem add_emotional_state_turns (m : MemorySystem) (uid : String)
    (r : EmotionalStateRecord) (u : String) :
    ((m.add_emotional_state uid r).userMem u).turns = (m.userMem u).turns := by
  simp only [MemorySystem.add_emotional_state, MemorySystem.userMem]
  by_cases hu : u = uid
  · subst hu; rw [if_pos rfl]
  · rw [if_neg hu]

/-- Appending an emotional state appends exactly one record to that user's
emotional timeline. -/
theorem add_emotional_state_self (m : MemorySystem) (uid : String)
    (r : EmotionalStateRecord) :
    ((m.add_emotional_state uid r).userMem uid).emotionalStates
      = (m.userMem uid).emotionalStates ++ [r] := by
  simp [MemorySystem.add_emotional_state, MemorySystem.userMem]

/-- Appending an emotional state for one user leaves every other user's
memory untouched. -/
theorem add_emotional_state_other (m : MemorySystem) (uid : String)
    (r : EmotionalStateRecord) (u : String) (hu : u ≠ uid) :
    (m.add_emotional_state uid r).userMem u = m.userMem u := by
  simp only [MemorySystem.add_emotional_state, MemorySystem.userMem]
  rw [if_neg hu]

/-- The message list returned by `build_prompt`, explicitly. -/
theorem build_prompt_fst (pol : Policy) (e : AIEngine) (msg uid : String) :
    (build_prompt pol e msg uid).1
      = Message.mk "system"
          (e.base_system_prompt ++ "\n\nCONTEXTO EMOCIONAL ACTUAL:\n"
            ++ pol.modifier (update_emotional_state pol msg)
            ++ "\nTu emoción actual: " ++ (update_emotional_state pol msg).emotion.value
            ++ " (intensidad: " ++ fmt2 (update_emotional_state pol msg).intensity
            ++ ")\nRazón: " ++ (update_emotional_state pol msg).reason
            ++ "\n\nMEMORIA DE CONVERSACIÓN:\n"
            ++ (e.memory_system.add_emotional_state uid
                  (update_emotional_state pol msg)).get_conversation_summary uid
            ++ "\n"
            ++ (e.memory_system.add_emotional_state uid
                  (update_emotional_state pol msg)).get_emotional_summary uid
            ++ "\n" ++ rag_context_of pol e msg)
        :: ((e.memory_system.add_emotional_state uid
              (update_emotional_state pol msg)).get_conversation_context uid 6).map
             (fun t => Message.mk t.role t.content)
        ++ [Message.mk "user" msg] := rfl

/-- The engine state returned by `build_prompt`, explicitly. -/
theorem build_prompt_snd (pol : Policy) (e : AIEngine) (msg uid : String) :
    (build_prompt pol e msg uid).2
      = { e with current_state := update_emotional_state pol msg
                 memory_system :=
                   e.memory_system.add_emotional_state uid (update_emotional_state pol msg) } :=
  rfl

/-- On every failing adapter outcome, `generate_response` returns the state
that `build_prompt` produced. -/
theorem generate_response_state_on_failure (pol : Policy) (e : AIEngine)
    (adapter : List Message → AdapterResult) (msg uid : String)
    (h : AdapterFails (adapter (build_prompt pol e msg uid).1)) :
    (generate_response pol e adapter msg uid).2 = (build_prompt pol e msg uid).2 := by
  rcases h with h | ⟨m, h⟩ | ⟨c, b, h, hc⟩
  · simp [generate_response, h]
  · simp [generate_response, h]
  · simp [generate_response, h, hc]

/-- C5: sanitization removes every complete open/close reasoning-delimiter
pair together with everything between them, matching non-greedily and
across multiple lines, then trims surrounding whitespace; in particular
`"<think>ignore me</think>Hello!"` yields exactly `"Hello!"`. -/
theorem sanitize_removes_reasoning_pairs :
    (∀ mid post : String, (∀ c ∈ mid.data, c ≠ '<') →
        removeThinkStr ("<think>" ++ mid ++ "</think>" ++ post) = removeThinkStr post)
    ∧ sanitize "<think>ignore me</think>Hello!" = "Hello!"
    ∧ sanitize "<think>a\nb</think>ok" = "ok"
    ∧ sanitize "<think>a</think>b</think>c" = "b</think>c"
    ∧ sanitize "x<think>a</think>y<think>b</think>z" = "xyz"
    ∧ sanitize " <think>a</think> b <think>c</think> " = "b" :=
  ⟨removeThinkStr_pair, by decide, by decide, by decide, by decide, by decide⟩

/-- Witness for C5: the pair-removal clause applied at a concrete input. -/
theorem sanitize_removes_reasoning_pairs_witness :
    removeThinkStr ("<think>" ++ "ignore me" ++ "</think>" ++ "Hello!")
      = removeThinkStr "Hello!" :=
  sanitize_removes_reasoning_pairs.1 "ignore me" "Hello!" (by decide)

/-- C10: an opening `<think>` marker with no matching close after it is left
in the returned reply (up to whitespace trimming); only complete open/close
pairs are removed. -/
theorem unmatched_open_marker_left_intact (s : String) (pre rest : List Char)
    (h1 : splitOnPat openTag s.data = some (pre, rest))
    (h2 : splitOnPat closeTag rest = none) :
    removeThinkStr s = s ∧ sanitize s = String.mk (pyStrip s.data) := by
  have hr := removeThinkStr_no_close s pre rest h1 h2
  exact ⟨hr, by rw [sanitize, hr]⟩

/-- Witness for C10: `"<think>abc"` has an open marker, no close after it,
and sanitization returns it unchanged. -/
theorem unmatched_open_marker_left_intact_witness :
    splitOnPat openTag "<think>abc".data = some ([], "abc".data)
    ∧ splitOnPat closeTag "abc".data = none
    ∧ sanitize "<think>abc" = "<think>abc" := by
  refine ⟨by decide, by decide, ?_⟩
  have h := unmatched_open_marker_left_intact "<think>abc" [] "abc".data
    (by decide) (by decide)
  rw [h.2]
  decide

/-- C8: a timeout of the model call makes `generate_response` return the
fixed apologetic text tagged `PREOCUPADA` ("Worried") instead of
propagating the error. -/
theorem timeout_gives_fixed_apologetic_reply (pol : Policy) (e : AIEngine)
    (adapter : List Message → AdapterResult) (msg uid : String)
    (h : adapter (build_prompt pol e msg uid).1 = AdapterResult.timeout) :
    (generate_response pol e adapter msg uid).1 = (timeout_reply, EmotionType.PREOCUPADA) := by
  simp [generate_response, h]

/-- Witness for C8 at a concrete engine and adapter. -/
theorem timeout_gives_fixed_apologetic_reply_witness :
    (generate_response pol0 eng0 (fun _ => AdapterResult.timeout) "Hola" "u1").1
      = (timeout_reply, EmotionType.PREOCUPADA) :=
  timeout_gives_fixed_apologetic_reply pol0 eng0 (fun _ => AdapterResult.timeout)
    "Hola" "u1" rfl

/-- Counterexample for C2: a non-success HTTP status (500) is a non-timeout
adapter failure, yet the reply is the connection-error note tagged
`NEUTRAL`, not an apologetic reply tagged `PREOCUPADA` ("Worried"). -/
theorem bad_status_reply_not_worried_cex :
    (generate_response pol0 eng0 (fun _ => AdapterResult.response 500 "") "Hola" "u1").1
      = (status_reply 500, EmotionType.NEUTRAL)
    ∧ EmotionType.NEUTRAL ≠ EmotionType.PREOCUPADA :=
  ⟨by decide, by decide⟩

/-- C2 as amended: a raised non-timeout exception yields the generic
apologetic reply with the diagnostic note, tagged `PREOCUPADA`; a returned
non-success HTTP status instead yields the connection-error note tagged
`NEUTRAL`. -/
theorem non_timeout_failure_replies (pol : Policy) (e : AIEngine)
    (adapter : List Message → AdapterResult) (msg uid : String) :
    (∀ m, adapter (build_prompt pol e msg uid).1 = AdapterResult.exc m →
        (generate_response pol e adapter msg uid).1 = (error_reply m, EmotionType.PREOCUPADA))
    ∧ (∀ c b, adapter (build_prompt pol e msg uid).1 = AdapterResult.response c b → c ≠ 200 →
        (generate_response pol e adapter msg uid).1 = (status_reply c, EmotionType.NEUTRAL)) := by
  constructor
  · intro m h
    simp [generate_response, h]
  · intro c b h hc
    simp [generate_response, h, hc]

/-- Witness for the amended C2 at a concrete raised exception. -/
theorem non_timeout_failure_replies_witness :
    (generate_response pol0 eng0 (fun _ => AdapterResult.exc "boom") "Hola" "u1").1
      = (error_reply "boom", EmotionType.PREOCUPADA) :=
  (non_timeout_failure_replies pol0 eng0 (fun _ => AdapterResult.exc "boom") "Hola" "u1").1
    "boom" rfl

/-- Counterexample for C1: after a timed-out call that returned the fallback
reply, the user's dialogue history is still empty — the fallback turn was
not persisted. -/
theorem fallback_reply_not_persisted_cex :
    (generate_response pol0 eng0 (fun _ => AdapterResult.timeout) "Hola" "u1").1
      = (timeout_reply, EmotionType.PREOCUPADA)
    ∧ (((generate_response pol0 eng0 (fun _ => AdapterResult.timeout) "Hola" "u1").2).memory_system.userMem "u1").turns
        = [] :=
  ⟨by decide, by decide⟩

/-- C1 as amended: fallback replies are NOT persisted — on every failing
adapter outcome no dialogue turn is appended to any user's history. -/
theorem failure_reply_not_added_to_history (pol : Policy) (e : AIEngine)
    (adapter : List Message → AdapterResult) (msg uid : String)
    (h : AdapterFails (adapter (build_prompt pol e msg uid).1)) :
    ∀ u, (((generate_response pol e adapter msg uid).2).memory_system.userMem u).turns
        = (e.memory_system.userMem u).turns := by
  intro u
  rw [generate_response_state_on_failure pol e adapter msg uid h, build_prompt_snd]
  exact add_emotional_state_turns e.memory_system uid (update_emotional_state pol msg) u

/-- Witness for the amended C1 at a concrete raised exception. -/
theorem failure_reply_not_added_to_history_witness :
    (((generate_response pol0 eng0 (fun _ => AdapterResult.exc "x") "Hola" "u1").2).memory_system.userMem "u1").turns
      = ((eng0.memory_system).userMem "u1").turns :=
  failure_reply_not_added_to_history pol0 eng0 (fun _ => AdapterResult.exc "x") "Hola" "u1"
    (Or.inr (Or.inl ⟨"x", rfl⟩)) "u1"

/-- C9: when prompt assembly completed but the model call failed, the call
leaves every user's dialogue turns and the retrieval index unchanged, while
exactly one new emotional-state record has been appended to the requesting
user's timeline (and no other user's timeline changed). -/
theorem failure_frame_effects (pol : Policy) (e : AIEngine)
    (adapter : List Message → AdapterResult) (msg uid : String)
    (h : AdapterFails (adapter (build_prompt pol e msg uid).1)) :
    (∀ u, (((generate_response pol e adapter msg uid).2).memory_system.userMem u).turns
        = (e.memory_system.userMem u).turns)
    ∧ ((generate_response pol e adapter msg uid).2).rag_engine = e.rag_engine
    ∧ (((generate_response pol e adapter msg uid).2).memory_system.userMem uid).emotionalStates
        = (e.memory_system.userMem uid).emotionalStates ++ [update_emotional_state pol msg]
    ∧ ∀ u, u ≠ uid →
        ((generate_response pol e adapter msg uid).2).memory_system.userMem u
          = e.memory_system.userMem u := by
  have hst := generate_response_state_on_failure pol e adapter msg uid h
  refine ⟨?_, ?_, ?_, ?_⟩
  · intro u
    rw [hst, build_prompt_snd]
    exact add_emotional_state_turns e.memory_system uid (update_emotional_state pol msg) u
  · rw [hst, build_prompt_snd]
  · rw [hst, build_prompt_snd]
    exact add_emotional_state_self e.memory_system uid (update_emotional_state pol msg)
  · intro u hu
    rw [hst, build_prompt_snd]
    exact add_emotional_state_other e.memory_system uid (update_emotional_state pol msg) u hu

/-- Witness for C9 at a concrete timeout. -/
theorem failure_frame_effects_witness :
    ((generate_response pol0 eng0 (fun _ => AdapterResult.timeout) "Hola" "u1").2).rag_engine
      = eng0.rag_engine
    ∧ (((generate_response pol0 eng0 (fun _ => AdapterResult.timeout) "Hola" "u1").2).memory_system.userMem "u1").emotionalStates
        = ((eng0.memory_system).userMem "u1").emotionalStates
            ++ [update_emotional_state pol0 "Hola"] := by
  have h := failure_frame_effects pol0 eng0 (fun _ => AdapterResult.timeout) "Hola" "u1"
    (Or.inl rfl)
  exact ⟨h.2.1, h.2.2.1⟩

/-- C4: `generate_response` is total — for every utterance, user id, engine
state (including an absent retrieval engine and an empty persona after
failed configuration loading) and adapter outcome it returns a reply text
and an emotion, and the text is one of the sanitized completion, the
status note, the timeout reply, or the generic apologetic reply. -/
theorem generate_response_total (pol : Policy) (e : AIEngine)
    (adapter : List Message → AdapterResult) (msg uid : String) :
    ∃ t em st, generate_response pol e adapter msg uid = ((t, em), st)
      ∧ ((∃ c, t = sanitize c) ∨ (∃ c, t = status_reply c) ∨ t = timeout_reply
          ∨ ∃ m, t = error_reply m) := by
  refine ⟨(generate_response pol e adapter msg uid).1.1,
    (generate_response pol e adapter msg uid).1.2,
    (generate_response pol e adapter msg uid).2, rfl, ?_⟩
  cases h : adapter (build_prompt pol e msg uid).1 with
  | response c b =>
    by_cases hc : c = 200
    · subst hc
      exact Or.inl ⟨b, by simp [generate_response, h]⟩
    · exact Or.inr (Or.inl ⟨c, by simp [generate_response, h, hc]⟩)
  | timeout => exact Or.inr (Or.inr (Or.inl (by simp [generate_response, h])))
  | exc m => exact Or.inr (Or.inr (Or.inr ⟨m, by simp [generate_response, h]⟩))

/-- C6: the assembled prompt is exactly one system message — persona, then
emotional modifier, then current-emotion statement, then conversation and
emotional summaries, then retrieved snippets, in that fixed order — followed
by the recent-context turns (at most 6, a suffix of the stored history, so
chronological) and finally the new user utterance; at most 2 snippets are
fetched when the retrieval engine is present. -/
theorem build_prompt_structure (pol : Policy) (e : AIEngine) (msg uid : String) :
    ∃ ctx : List DialogueTurn,
      ctx = (e.memory_system.add_emotional_state uid
          (update_emotional_state pol msg)).get_conversation_context uid 6
      ∧ (build_prompt pol e msg uid).1
          = Message.mk "system"
              (e.base_system_prompt ++ "\n\nCONTEXTO EMOCIONAL ACTUAL:\n"
                ++ pol.modifier (update_emotional_state pol msg)
                ++ "\nTu emoción actual: " ++ (update_emotional_state pol msg).emotion.value
                ++ " (intensidad: " ++ fmt2 (update_emotional_state pol msg).intensity
                ++ ")\nRazón: " ++ (update_emotional_state pol msg).reason
                ++ "\n\nMEMORIA DE CONVERSACIÓN:\n"
                ++ (e.memory_system.add_emotional_state uid
                      (update_emotional_state pol msg)).get_conversation_summary uid
                ++ "\n"
                ++ (e.memory_system.add_emotional_state uid
                      (update_emotional_state pol msg)).get_emotional_summary uid
                ++ "\n" ++ rag_context_of pol e msg)
            :: ctx.map (fun t => Message.mk t.role t.content) ++ [Message.mk "user" msg]
      ∧ ctx.length ≤ 6
      ∧ (∃ skipped, skipped ++ ctx
          = ((e.memory_system.add_emotional_state uid
                (update_emotional_state pol msg)).userMem uid).turns)
      ∧ ∀ rag, e.rag_engine = some rag → (rag.query pol msg 2).length ≤ 2 := by
  refine ⟨(e.memory_system.add_emotional_state uid
      (update_emotional_state pol msg)).get_conversation_context uid 6,
    rfl, ?_, ?_, ?_, ?_⟩
  · rfl
  · simp only [MemorySystem.get_conversation_context, List.length_drop]
    omega
  · exact ⟨_, List.take_append_drop _ _⟩
  · intro rag _
    exact List.length_take_le _ _

/-- Witness for C6: the snippet-count clause at a concrete engine whose
retrieval index holds one document. -/
theorem build_prompt_structure_witness :
    ((⟨["doc"]⟩ : RAGEngine).query pol0 "hola" 2).length ≤ 2 := by
  obtain ⟨ctx, h1, h2, h3, h4, h5⟩ := build_prompt_structure pol0 engDoc "hola" "u1"
  exact h5 ⟨["doc"]⟩ rfl

/-- C7: with the retrieval engine absent (failed construction), the
retrieval segment of every assembled prompt is empty, the call still
returns a reply, and the engine stays without a retrieval index, so every
subsequent call behaves the same. -/
theorem rag_absent_degrades (pol : Policy) (e : AIEngine)
    (adapter : List Message → AdapterResult) (msg uid : String)
    (h : e.rag_engine = none) :
    rag_context_of pol e msg = ""
    ∧ (∃ t em st, generate_response pol e adapter msg uid = ((t, em), st)
        ∧ st.rag_engine = none) := by
  constructor
  · simp [rag_context_of, h]
  · refine ⟨(generate_response pol e adapter msg uid).1.1,
      (generate_response pol e adapter msg uid).1.2,
      (generate_response pol e adapter msg uid).2, rfl, ?_⟩
    have hh : (build_prompt pol e msg uid).2.rag_engine = none := by
      rw [build_prompt_snd]
      exact h
    cases hres : adapter (build_prompt pol e msg uid).1 with
    | response c b =>
      by_cases hc : c = 200
      · subst hc
        simp [generate_response, hres, hh]
      · simp [generate_response, hres, hc, hh]
    | timeout => simp [generate_response, hres, hh]
    | exc m => simp [generate_response, hres, hh]

/-- Witness for C7 at a concrete engine without retrieval index, on a
successful model call. -/
theorem rag_absent_degrades_witness :
    rag_context_of pol0 eng0 "Hola" = ""
    ∧ ((generate_response pol0 eng0 (fun _ => AdapterResult.response 200 "ok") "Hola" "u1").2).rag_engine
        = none := by
  obtain ⟨h1, t, em, st, heq, hr⟩ :=
    rag_absent_degrades pol0 eng0 (fun _ => AdapterResult.response 200 "ok") "Hola" "u1" rfl
  exact ⟨h1, by rw [heq]; exact hr⟩

/-- Counterexample for C3: with one 100001-character snippet in the
retrieval index, the assembled system segment contains the snippet in full
and exceeds 100000 characters — nothing is truncated and no size budget is
enforced. -/
theorem prompt_budget_truncation_cex :
    (∃ p q, (((build_prompt pol0 engBig "hola" "u1").1.headD (Message.mk "" "")).content)
        = p ++ bigDoc ++ q)
    ∧ 100000 < (((build_prompt pol0 engBig "hola" "u1").1.headD (Message.mk "" "")).content).length := by
  have hrc : rag_context_of pol0 engBig "hola"
      = "INFORMACIÓN RELEVANTE RECUPERADA:\n" ++ bigDoc ++ "\n" := rfl
  have hsplit : ∃ a, (((build_prompt pol0 engBig "hola" "u1").1.headD (Message.mk "" "")).content)
      = a ++ rag_context_of pol0 engBig "hola" := ⟨_, rfl⟩
  obtain ⟨a, ha⟩ := hsplit
  have hbig : bigDoc.length = 100001 := List.length_replicate 100001 'a'
  constructor
  · refine ⟨a ++ "INFORMACIÓN RELEVANTE RECUPERADA:\n", "\n", ?_⟩
    rw [ha, hrc]
    simp [String.append_assoc]
  · rw [ha, hrc]
    simp [String.length_append]
    omega

/-- C3 as amended: `build_prompt` enforces no size budget and truncates
nothing — the persona always opens the system segment in full, every
fetched snippet appears in full inside the retrieval segment, and the final
message is exactly the current utterance; only the recent-context window is
bounded, and by message count, not by size. -/
theorem build_prompt_never_truncates (pol : Policy) (e : AIEngine) (msg uid : String) :
    (∃ rest, ((((build_prompt pol e msg uid).1.headD (Message.mk "" "")).content)).data
        = e.base_system_prompt.data ++ rest)
    ∧ (∀ rag, e.rag_engine = some rag → ∀ d ∈ rag.query pol msg 2,
        ∃ p q, rag_context_of pol e msg = p ++ d ++ q)
    ∧ (build_prompt pol e msg uid).1.getLast? = some (Message.mk "user" msg) := by
  refine ⟨?_, ?_, ?_⟩
  · rw [build_prompt_fst, List.cons_append]
    simp only [List.headD_cons, String.data_append, List.append_assoc]
    exact ⟨_, rfl⟩
  · intro rag hrag d hd
    have hne : rag.query pol msg 2 ≠ [] := List.ne_nil_of_mem hd
    obtain ⟨p, q, hpq⟩ := joinLines_infix (rag.query pol msg 2) d hd
    refine ⟨"INFORMACIÓN RELEVANTE RECUPERADA:\n" ++ p, q ++ "\n", ?_⟩
    simp only [rag_context_of, hrag]
    rw [if_neg hne, hpq]
    simp [String.append_assoc]
  · rw [build_prompt_fst]
    exact List.getLast?_concat _

/-- Witness for the amended C3: the snippet-in-full clause at a concrete
one-document index. -/
theorem build_prompt_never_truncates_witness :
    ∃ p q, rag_context_of pol0 engDoc "hola" = p ++ "doc" ++ q :=
  (build_prompt_never_truncates pol0 engDoc "hola" "u1").2.1 ⟨["doc"]⟩ rfl "doc" (by decide)

end Lily
